import Mathlib

/-!
Shallow embedding of the HA cluster state machine in `src/ha/cluster_state.c`
(NetBlade OS v3.x High Availability Module).

The C module keeps one global `cluster_state_t` record protected by a single
mutex; every public operation is a short critical section.  We model each
operation as a pure function from the state to a new state, together with the
list of external side effects it performs (network-plane calls, the outbound
heartbeat, log lines) and its integer return code.  Machine integers
(`uint8_t` roles and policies, `uint32_t` cluster id) are modelled as `Nat`;
`time_t` timestamps and millisecond quantities as `Int`; the bounded C strings
`char[32]` as lists of their visible bytes (the terminating NUL is not
represented; every write path truncates to 31 visible bytes, so byte 31 of the
buffer is always NUL in the C code).
-/

namespace NetBlade

/-- Cluster role constants (cluster_state.c lines 24-27). -/
def CLUSTER_ROLE_INIT : Nat := 0

/-- CLUSTER_ROLE_ACTIVE = 1. -/
def CLUSTER_ROLE_ACTIVE : Nat := 1

/-- CLUSTER_ROLE_STANDBY = 2. -/
def CLUSTER_ROLE_STANDBY : Nat := 2

/-- CLUSTER_ROLE_SPLIT = 3 (error overlay, "both nodes active"). -/
def CLUSTER_ROLE_SPLIT : Nat := 3

/-- HEARTBEAT_TIMEOUT_MS = 3000 (three missed 1000 ms intervals). -/
def HEARTBEAT_TIMEOUT_MS : Int := 3000

/-- ELECTION_PRIORITY_SERIAL = 0. -/
def ELECTION_PRIORITY_SERIAL : Nat := 0

/-- ELECTION_PRIORITY_UPTIME = 1. -/
def ELECTION_PRIORITY_UPTIME : Nat := 1

/-- The mutable cluster state (`cluster_state_t`, cluster_state.c lines 38-51).
The pthread mutex is not represented: every modelled operation is one whole
critical section. -/
structure cluster_state_t where
  local_role : Nat
  peer_role : Nat
  heartbeat_up : Bool
  last_heartbeat_rx : Int
  last_heartbeat_tx : Int
  cluster_id : Nat
  local_serial : List Nat
  peer_serial : List Nat
  split_brain_detected : Bool
  auto_recovery_enabled : Bool
  election_policy : Nat
deriving DecidableEq, Repr

/-- The wire heartbeat message (`heartbeat_msg_t`).  The header `heartbeat.h`
is not in the sources; the fields and the 31-visible-byte serial bound are the
ones used by cluster_state.c and stated by the wire-format description. -/
structure heartbeat_msg_t where
  cluster_id : Nat
  sender_role : Nat
  sender_serial : List Nat
  timestamp : Int
deriving DecidableEq, Repr

/-- The status snapshot filled in by `cluster_get_status`
(`cluster_status_t`, fields as assigned at cluster_state.c lines 237-244). -/
structure cluster_status_t where
  cluster_id : Nat
  local_role : Nat
  peer_role : Nat
  heartbeat_up : Bool
  split_brain : Bool
  last_heartbeat : Int
  local_serial : List Nat
  peer_serial : List Nat
deriving DecidableEq, Repr

/-- Tags identifying the individual `syslog_write` call sites of
cluster_state.c, so that logging shows up in the effect trace. -/
inductive LogTag where
  | heartbeatLost
  | promoteStandby
  | splitBrainDetected
  | resolvePolicy
  | autoDemote
  | remainsActive
  | heartbeatRestored
  | forcingRole
deriving DecidableEq, Repr

/-- External side effects performed by the cluster operations: the four
network-plane calls, the outbound heartbeat, and log lines. -/
inductive Effect where
  | log (tag : LogTag)
  | activate_virtual_ips
  | activate_mac_tables
  | release_virtual_ips
  | flush_mac_tables
  | heartbeat_send (msg : heartbeat_msg_t)
deriving DecidableEq, Repr

/-- Result of one public operation: the C return code, the post-state, and the
ordered list of external side effects performed while holding the lock. -/
structure StepResult where
  rc : Int
  state : cluster_state_t
  effects : List Effect
deriving DecidableEq, Repr

/-- C `strcmp` on NUL-terminated byte strings, restricted to the visible
(nonzero) bytes: lexicographic comparison where a strict prefix sorts
strictly smaller (its NUL terminator compares below any visible byte). -/
def strcmpBytes : List Nat → List Nat → Ordering
  | [], [] => Ordering.eq
  | [], _ :: _ => Ordering.lt
  | _ :: _, [] => Ordering.gt
  | a :: as, b :: bs =>
      if a < b then Ordering.lt
      else if b < a then Ordering.gt
      else strcmpBytes as bs

/-- `cluster_state_init` (cluster_state.c lines 58-75): zero the whole record,
then set cluster id, the (truncated) local serial, both roles to Init, and the
default configuration. -/
def cluster_state_init (cid : Nat) (local_serial : List Nat) : cluster_state_t :=
  { local_role := CLUSTER_ROLE_INIT
    peer_role := CLUSTER_ROLE_INIT
    heartbeat_up := false
    last_heartbeat_rx := 0
    last_heartbeat_tx := 0
    cluster_id := cid
    local_serial := local_serial.take 31
    peer_serial := []
    split_brain_detected := false
    auto_recovery_enabled := false
    election_policy := ELECTION_PRIORITY_SERIAL }

/-- The `should_demote` computation of `cluster_auto_resolve_split_brain`
(cluster_state.c lines 173-184).  The two uptime reads
`get_system_uptime()` / `get_peer_uptime()` are external collaborators and are
passed in as parameters `lu` and `pu`.  A policy value outside {0,1} leaves
`should_demote` at its initialisation `false` (no `default` case in the C
switch). -/
def should_demote (lu pu : Int) (s : cluster_state_t) : Bool :=
  if s.election_policy = ELECTION_PRIORITY_SERIAL then
    strcmpBytes s.local_serial s.peer_serial = Ordering.gt
  else if s.election_policy = ELECTION_PRIORITY_UPTIME then
    decide (lu < pu)
  else false

/-- `cluster_auto_resolve_split_brain` (cluster_state.c lines 168-201):
evaluate the election policy; on demotion set `local_role = STANDBY`, release
the virtual IPs, flush the MAC tables and clear `split_brain_detected`;
otherwise only log that the local node remains ACTIVE. -/
def cluster_auto_resolve_split_brain (lu pu : Int) (s : cluster_state_t) : StepResult :=
  if should_demote lu pu s then
    { rc := 0
      state := { s with local_role := CLUSTER_ROLE_STANDBY, split_brain_detected := false }
      effects := [Effect.log LogTag.resolvePolicy, Effect.log LogTag.autoDemote,
                  Effect.release_virtual_ips, Effect.flush_mac_tables] }
  else
    { rc := 0
      state := s
      effects := [Effect.log LogTag.resolvePolicy, Effect.log LogTag.remainsActive] }

/-- Heartbeat-loss phase of `cluster_heartbeat_tick` (cluster_state.c lines
87-108): if the heartbeat is currently up and more than HEARTBEAT_TIMEOUT_MS
have elapsed since the last receive, mark it down; if the local node is then
STANDBY, promote it to ACTIVE and activate the forwarding resources. -/
def tick_loss_phase (now : Int) (s : cluster_state_t) : cluster_state_t × List Effect :=
  let ms_since_rx : Int := (now - s.last_heartbeat_rx) * 1000
  if s.heartbeat_up = true ∧ ms_since_rx > HEARTBEAT_TIMEOUT_MS then
    let s1 := { s with heartbeat_up := false }
    if s1.local_role = CLUSTER_ROLE_STANDBY then
      ({ s1 with local_role := CLUSTER_ROLE_ACTIVE },
       [Effect.log LogTag.heartbeatLost, Effect.log LogTag.promoteStandby,
        Effect.activate_virtual_ips, Effect.activate_mac_tables])
    else
      (s1, [Effect.log LogTag.heartbeatLost])
  else
    (s, [])

/-- Split-brain detection phase of `cluster_heartbeat_tick` (cluster_state.c
lines 110-124): if both roles are ACTIVE and the flag is not yet set, set it
(edge-triggered) and, when auto recovery is enabled, run the resolver
synchronously. -/
def tick_split_phase (lu pu : Int) (s : cluster_state_t) : cluster_state_t × List Effect :=
  if s.local_role = CLUSTER_ROLE_ACTIVE ∧ s.peer_role = CLUSTER_ROLE_ACTIVE then
    if s.split_brain_detected = false then
      let s2 := { s with split_brain_detected := true }
      if s2.auto_recovery_enabled = true then
        let r := cluster_auto_resolve_split_brain lu pu s2
        (r.state, Effect.log LogTag.splitBrainDetected :: r.effects)
      else
        (s2, [Effect.log LogTag.splitBrainDetected])
    else
      (s, [])
  else
    (s, [])

/-- `cluster_heartbeat_tick` (cluster_state.c lines 83-138): the loss phase,
then split-brain detection, then the unconditional outbound heartbeat carrying
the current (possibly just changed) local role, and `last_heartbeat_tx := now`.
Always returns 0. -/
def cluster_heartbeat_tick (now lu pu : Int) (s : cluster_state_t) : StepResult :=
  let r1 := tick_loss_phase now s
  let r2 := tick_split_phase lu pu r1.1
  let msg : heartbeat_msg_t :=
    { cluster_id := r2.1.cluster_id
      sender_role := r2.1.local_role
      sender_serial := r2.1.local_serial.take 31
      timestamp := now }
  { rc := 0
    state := { r2.1 with last_heartbeat_tx := now }
    effects := r1.2 ++ r2.2 ++ [Effect.heartbeat_send msg] }

/-- `cluster_heartbeat_received` (cluster_state.c lines 143-160): refresh
`last_heartbeat_rx` and `heartbeat_up`, copy the sender role verbatim and the
sender serial truncated to 31 bytes; if a split-brain episode is pending, log
that the heartbeat is restored (informational only).  Always returns 0. -/
def cluster_heartbeat_received (now : Int) (msg : heartbeat_msg_t)
    (s : cluster_state_t) : StepResult :=
  let s1 := { s with
    last_heartbeat_rx := now
    heartbeat_up := true
    peer_role := msg.sender_role
    peer_serial := msg.sender_serial.take 31 }
  { rc := 0
    state := s1
    effects := if s1.split_brain_detected = true ∧ s1.heartbeat_up = true then
                 [Effect.log LogTag.heartbeatRestored]
               else [] }

/-- `cluster_force_role` (cluster_state.c lines 206-226): apply the matching
resource side effect (release for STANDBY, activate for ACTIVE, nothing for any
other value), store the requested role verbatim, and clear
`split_brain_detected` unconditionally.  Always returns 0. -/
def cluster_force_role (role : Nat) (s : cluster_state_t) : StepResult :=
  let sideEffects : List Effect :=
    if role = CLUSTER_ROLE_STANDBY then
      [Effect.release_virtual_ips, Effect.flush_mac_tables]
    else if role = CLUSTER_ROLE_ACTIVE then
      [Effect.activate_virtual_ips, Effect.activate_mac_tables]
    else []
  { rc := 0
    state := { s with local_role := role, split_brain_detected := false }
    effects := Effect.log LogTag.forcingRole :: sideEffects }

/-- `cluster_get_status` (cluster_state.c lines 231-248): `dest_ok` models
whether the caller passed a non-null destination.  On a null destination the
function returns -1 before touching anything; otherwise it fills the snapshot
(serials copied through `strncpy` with a 31-byte bound) and returns 0.  It
never mutates the cluster state. -/
def cluster_get_status (dest_ok : Bool) (s : cluster_state_t) :
    Int × Option cluster_status_t :=
  if dest_ok = false then (-1, none)
  else
    (0, some
      { cluster_id := s.cluster_id
        local_role := s.local_role
        peer_role := s.peer_role
        heartbeat_up := s.heartbeat_up
        split_brain := s.split_brain_detected
        last_heartbeat := s.last_heartbeat_rx
        local_serial := s.local_serial.take 31
        peer_serial := s.peer_serial.take 31 })

/-- One public operation of the module, with the external inputs it consumes:
`tick` takes the wall clock and the two uptime collaborator readings,
`receive` the wall clock and the message, `force_role` the requested role, and
`get_status` the addressability of its destination. -/
inductive Op where
  | tick (now lu pu : Int)
  | receive (now : Int) (msg : heartbeat_msg_t)
  | force_role (role : Nat)
  | get_status (dest_ok : Bool)
deriving DecidableEq, Repr

/-- State transition of one public operation (`get_status` is read-only). -/
def step (s : cluster_state_t) : Op → cluster_state_t
  | Op.tick now lu pu => (cluster_heartbeat_tick now lu pu s).state
  | Op.receive now msg => (cluster_heartbeat_received now msg s).state
  | Op.force_role role => (cluster_force_role role s).state
  | Op.get_status _ => s

/-- Projections of `should_demote` only read the election policy and the two
serial strings, so record updates to the other fields do not change it. -/
theorem should_demote_congr (lu pu : Int) (s t : cluster_state_t)
    (hpol : s.election_policy = t.election_policy)
    (hls : s.local_serial = t.local_serial)
    (hps : s.peer_serial = t.peer_serial) :
    should_demote lu pu s = should_demote lu pu t := by
  simp [should_demote, hpol, hls, hps]

/-- C2: under the SerialNumber policy with both roles Active, `auto_resolve`
compares the serials as byte sequences; a strictly greater local serial
demotes the local node to Standby, runs the release path and clears the
split-brain flag; a strictly smaller one leaves the state (role Active, flag
still set) untouched; equal serials change nothing. -/
theorem serial_tie_break (lu pu : Int) (s : cluster_state_t)
    (hl : s.local_role = CLUSTER_ROLE_ACTIVE)
    (hp : s.peer_role = CLUSTER_ROLE_ACTIVE)
    (hpol : s.election_policy = ELECTION_PRIORITY_SERIAL) :
    (strcmpBytes s.local_serial s.peer_serial = Ordering.gt →
      (cluster_auto_resolve_split_brain lu pu s).state =
        { s with local_role := CLUSTER_ROLE_STANDBY, split_brain_detected := false } ∧
      Effect.release_virtual_ips ∈ (cluster_auto_resolve_split_brain lu pu s).effects ∧
      Effect.flush_mac_tables ∈ (cluster_auto_resolve_split_brain lu pu s).effects) ∧
    (strcmpBytes s.local_serial s.peer_serial = Ordering.lt →
      (cluster_auto_resolve_split_brain lu pu s).state = s ∧
      (cluster_auto_resolve_split_brain lu pu s).state.local_role = CLUSTER_ROLE_ACTIVE ∧
      (cluster_auto_resolve_split_brain lu pu s).state.split_brain_detected =
        s.split_brain_detected) ∧
    (strcmpBytes s.local_serial s.peer_serial = Ordering.eq →
      (cluster_auto_resolve_split_brain lu pu s).state = s) := by
  refine ⟨?_, ?_, ?_⟩ <;> intro h <;>
    simp [cluster_auto_resolve_split_brain, should_demote, hpol, hl,
      ELECTION_PRIORITY_SERIAL, h]

/-- Example state for the C2 witness: both nodes Active during a split-brain
episode, SerialNumber policy, local serial "B" sorting above peer serial "A". -/
def exTieBreak : cluster_state_t :=
  { local_role := CLUSTER_ROLE_ACTIVE
    peer_role := CLUSTER_ROLE_ACTIVE
    heartbeat_up := true
    last_heartbeat_rx := 0
    last_heartbeat_tx := 0
    cluster_id := 1
    local_serial := [66]
    peer_serial := [65]
    split_brain_detected := true
    auto_recovery_enabled := true
    election_policy := ELECTION_PRIORITY_SERIAL }

/-- Witness for C2 at a concrete dual-active state whose local serial sorts
strictly above the peer serial: the resolver demotes the local node. -/
theorem serial_tie_break_witness :
    exTieBreak.local_role = CLUSTER_ROLE_ACTIVE ∧
    exTieBreak.peer_role = CLUSTER_ROLE_ACTIVE ∧
    exTieBreak.election_policy = ELECTION_PRIORITY_SERIAL ∧
    strcmpBytes exTieBreak.local_serial exTieBreak.peer_serial = Ordering.gt ∧
    (cluster_auto_resolve_split_brain 0 0 exTieBreak).state =
      { exTieBreak with local_role := CLUSTER_ROLE_STANDBY, split_brain_detected := false } :=
  ⟨rfl, rfl, rfl, by decide,
    ((serial_tie_break 0 0 exTieBreak rfl rfl rfl).1 (by decide)).1⟩

/-- C5: `force_role` with Active or Standby applies the matching resource side
effect, stores the requested role, and clears the split-brain flag, whatever
the prior state was. -/
theorem force_role_override (s : cluster_state_t) (role : Nat)
    (h : role = CLUSTER_ROLE_ACTIVE ∨ role = CLUSTER_ROLE_STANDBY) :
    (cluster_force_role role s).rc = 0 ∧
    (cluster_force_role role s).state =
      { s with local_role := role, split_brain_detected := false } ∧
    (role = CLUSTER_ROLE_STANDBY →
      (cluster_force_role role s).effects =
        [Effect.log LogTag.forcingRole, Effect.release_virtual_ips,
         Effect.flush_mac_tables]) ∧
    (role = CLUSTER_ROLE_ACTIVE →
      (cluster_force_role role s).effects =
        [Effect.log LogTag.forcingRole, Effect.activate_virtual_ips,
         Effect.activate_mac_tables]) := by
  refine ⟨rfl, rfl, ?_, ?_⟩ <;> intro hr <;>
    simp [cluster_force_role, hr, CLUSTER_ROLE_STANDBY, CLUSTER_ROLE_ACTIVE]

/-- Witness for C5: forcing Standby on a split-brain state stores Standby,
clears the flag and runs the release path. -/
theorem force_role_override_witness :
    (CLUSTER_ROLE_STANDBY = CLUSTER_ROLE_ACTIVE ∨
     CLUSTER_ROLE_STANDBY = CLUSTER_ROLE_STANDBY) ∧
    (cluster_force_role CLUSTER_ROLE_STANDBY exTieBreak).state =
      { exTieBreak with local_role := CLUSTER_ROLE_STANDBY,
                        split_brain_detected := false } :=
  ⟨Or.inr rfl,
    (force_role_override exTieBreak CLUSTER_ROLE_STANDBY (Or.inr rfl)).2.1⟩

/-- C6: `receive` updates exactly the liveness timestamp, the liveness flag,
the peer role and the (truncated) peer serial; every other field — in
particular `local_role` and `split_brain_detected` — is left unchanged, and
the call returns 0. -/
theorem receive_frame_condition (s : cluster_state_t) (msg : heartbeat_msg_t)
    (now : Int) :
    (cluster_heartbeat_received now msg s).rc = 0 ∧
    (cluster_heartbeat_received now msg s).state =
      { s with last_heartbeat_rx := now, heartbeat_up := true,
               peer_role := msg.sender_role,
               peer_serial := msg.sender_serial.take 31 } ∧
    (cluster_heartbeat_received now msg s).state.local_role = s.local_role ∧
    (cluster_heartbeat_received now msg s).state.split_brain_detected =
      s.split_brain_detected :=
  ⟨rfl, rfl, rfl, rfl⟩

/-- C7 amended: a second `auto_resolve` with no intervening state change and
the same uptime readings returns the identical result (same final state, same
return code, and the same effect list as the first call). -/
theorem auto_resolve_state_idempotent (lu pu : Int) (s : cluster_state_t) :
    cluster_auto_resolve_split_brain lu pu
        (cluster_auto_resolve_split_brain lu pu s).state =
      cluster_auto_resolve_split_brain lu pu s := by
  by_cases h : should_demote lu pu s = true
  · have h2 : should_demote lu pu
        { s with local_role := CLUSTER_ROLE_STANDBY, split_brain_detected := false } = true := h
    simp [cluster_auto_resolve_split_brain, h, h2]
  · simp [cluster_auto_resolve_split_brain, h]

/-- Counterexample for C7 as stated: on a state the resolver demotes, the
first call already runs the release path, and an immediately repeated call
re-executes the demotion branch and re-invokes the release side effects —
they are duplicated, not replaced by a "remains Active" log. -/
theorem auto_resolve_duplicate_release :
    (cluster_auto_resolve_split_brain 0 0 exTieBreak).state.local_role =
      CLUSTER_ROLE_STANDBY ∧
    Effect.release_virtual_ips ∈
      (cluster_auto_resolve_split_brain 0 0 exTieBreak).effects ∧
    Effect.release_virtual_ips ∈
      (cluster_auto_resolve_split_brain 0 0
        (cluster_auto_resolve_split_brain 0 0 exTieBreak).state).effects := by
  decide

/-- C9: the receiver never checks the message's cluster id — even a heartbeat
whose cluster id differs from the stored one refreshes liveness, peer role and
peer serial exactly as usual. -/
theorem receive_ignores_cluster_id (s : cluster_state_t) (msg : heartbeat_msg_t)
    (now : Int) (h : msg.cluster_id ≠ s.cluster_id) :
    (cluster_heartbeat_received now msg s).rc = 0 ∧
    (cluster_heartbeat_received now msg s).state =
      { s with last_heartbeat_rx := now, heartbeat_up := true,
               peer_role := msg.sender_role,
               peer_serial := msg.sender_serial.take 31 } :=
  ⟨rfl, rfl⟩

/-- Heartbeat carrying a foreign cluster id, for the C9 witness. -/
def msgForeign : heartbeat_msg_t :=
  { cluster_id := 2, sender_role := CLUSTER_ROLE_ACTIVE,
    sender_serial := [67], timestamp := 9 }

/-- Witness for C9: a heartbeat with cluster id 2 arriving at a node of
cluster 1 is processed normally. -/
theorem receive_ignores_cluster_id_witness :
    msgForeign.cluster_id ≠ (cluster_state_init 1 [65]).cluster_id ∧
    (cluster_heartbeat_received 9 msgForeign (cluster_state_init 1 [65])).state =
      { cluster_state_init 1 [65] with
          last_heartbeat_rx := 9, heartbeat_up := true,
          peer_role := msgForeign.sender_role,
          peer_serial := msgForeign.sender_serial.take 31 } :=
  ⟨by decide,
    (receive_ignores_cluster_id (cluster_state_init 1 [65]) msgForeign 9 (by decide)).2⟩

/-- C8: `tick` and `receive` return 0 on every state and input; `get_status`
returns -1 and writes nothing when the destination is null, and otherwise
returns 0 together with a snapshot of the eight documented fields (the serial
copies go through the 31-byte `strncpy` bound, which is the identity on the
in-bounds serials every reachable state carries). -/
theorem error_handling_contract :
    (∀ now lu pu s, (cluster_heartbeat_tick now lu pu s).rc = 0) ∧
    (∀ now msg s, (cluster_heartbeat_received now msg s).rc = 0) ∧
    (∀ s, cluster_get_status false s = (-1, none)) ∧
    (∀ s, cluster_get_status true s =
      (0, some { cluster_id := s.cluster_id, local_role := s.local_role,
                 peer_role := s.peer_role, heartbeat_up := s.heartbeat_up,
                 split_brain := s.split_brain_detected,
                 last_heartbeat := s.last_heartbeat_rx,
                 local_serial := s.local_serial.take 31,
                 peer_serial := s.peer_serial.take 31 })) ∧
    (∀ s, s.local_serial.length ≤ 31 → s.peer_serial.length ≤ 31 →
      cluster_get_status true s =
        (0, some { cluster_id := s.cluster_id, local_role := s.local_role,
                   peer_role := s.peer_role, heartbeat_up := s.heartbeat_up,
                   split_brain := s.split_brain_detected,
                   last_heartbeat := s.last_heartbeat_rx,
                   local_serial := s.local_serial,
                   peer_serial := s.peer_serial })) := by
  refine ⟨fun now lu pu s => rfl, fun now msg s => rfl, fun s => rfl, fun s => rfl,
    fun s hls hps => ?_⟩
  simp [cluster_get_status, List.take_of_length_le hls, List.take_of_length_le hps]

/-- Witness for C8 at the freshly initialised state of cluster 1 with serial
"A": the snapshot returns the serials uncut. -/
theorem error_handling_contract_witness :
    (cluster_state_init 1 [65]).local_serial.length ≤ 31 ∧
    (cluster_state_init 1 [65]).peer_serial.length ≤ 31 ∧
    cluster_get_status true (cluster_state_init 1 [65]) =
      (0, some { cluster_id := 1, local_role := CLUSTER_ROLE_INIT,
                 peer_role := CLUSTER_ROLE_INIT, heartbeat_up := false,
                 split_brain := false, last_heartbeat := 0,
                 local_serial := [65], peer_serial := [] }) :=
  ⟨by decide, by decide,
    error_handling_contract.2.2.2.2 (cluster_state_init 1 [65]) (by decide) (by decide)⟩

/-- Role fields stay in the declared domain {Init, Active, Standby}. -/
def RoleDomainOk (s : cluster_state_t) : Prop :=
  (s.local_role = CLUSTER_ROLE_INIT ∨ s.local_role = CLUSTER_ROLE_ACTIVE ∨
   s.local_role = CLUSTER_ROLE_STANDBY) ∧
  (s.peer_role = CLUSTER_ROLE_INIT ∨ s.peer_role = CLUSTER_ROLE_ACTIVE ∨
   s.peer_role = CLUSTER_ROLE_STANDBY)

instance (s : cluster_state_t) : Decidable (RoleDomainOk s) := by
  unfold RoleDomainOk
  infer_instance

/-- Inputs within the interface's declared domains: received heartbeats carry
a role of the two-node protocol other than the Split overlay, and the operator
command requests Active or Standby. -/
def OpInDomain : Op → Prop
  | Op.receive _ msg =>
      msg.sender_role = CLUSTER_ROLE_INIT ∨ msg.sender_role = CLUSTER_ROLE_ACTIVE ∨
      msg.sender_role = CLUSTER_ROLE_STANDBY
  | Op.force_role role =>
      role = CLUSTER_ROLE_ACTIVE ∨ role = CLUSTER_ROLE_STANDBY
  | _ => True

/-- The tick transition never moves a role field out of
{Init, Active, Standby}: the loss phase can only write Active into
`local_role`, the resolver only Standby, and `peer_role` is untouched. -/
theorem tick_role_domain (now lu pu : Int) (s : cluster_state_t)
    (hs : RoleDomainOk s) :
    RoleDomainOk (cluster_heartbeat_tick now lu pu s).state := by
  obtain ⟨h1, h2⟩ := hs
  unfold cluster_heartbeat_tick tick_loss_phase tick_split_phase
    cluster_auto_resolve_split_brain
  dsimp only
  split_ifs <;>
    simp_all [RoleDomainOk, CLUSTER_ROLE_INIT, CLUSTER_ROLE_ACTIVE, CLUSTER_ROLE_STANDBY]

/-- C1 amended: after `init`, and after every operation whose inputs stay in
the declared domains (received heartbeats whose sender role is Init, Active or
Standby, and `force_role` called with Active or Standby), both role fields
remain in {Init, Active, Standby}.  Without the input restriction the
invariant fails: `receive` stores the message's sender role verbatim and
`force_role` stores its argument verbatim. -/
theorem role_domain_preserved :
    (∀ cid serial, RoleDomainOk (cluster_state_init cid serial)) ∧
    (∀ s op, RoleDomainOk s → OpInDomain op → RoleDomainOk (step s op)) := by
  constructor
  · intro cid serial
    exact ⟨Or.inl rfl, Or.inl rfl⟩
  · intro s op hs hop
    cases op with
    | tick now lu pu => exact tick_role_domain now lu pu s hs
    | receive now msg => exact ⟨hs.1, hop⟩
    | force_role role =>
        exact ⟨hop.elim (fun h => Or.inr (Or.inl h)) (fun h => Or.inr (Or.inr h)), hs.2⟩
    | get_status d => exact hs

/-- Witness for C1 at a concrete trace step: forcing Active on a fresh state
keeps both roles in the domain. -/
theorem role_domain_preserved_witness :
    RoleDomainOk (cluster_state_init 7 [65]) ∧
    OpInDomain (Op.force_role CLUSTER_ROLE_ACTIVE) ∧
    RoleDomainOk (step (cluster_state_init 7 [65]) (Op.force_role CLUSTER_ROLE_ACTIVE)) :=
  ⟨by decide, Or.inl rfl,
    role_domain_preserved.2 (cluster_state_init 7 [65]) (Op.force_role CLUSTER_ROLE_ACTIVE)
      (role_domain_preserved.1 7 [65]) (Or.inl rfl)⟩

/-- Counterexample for C1 as stated: a received heartbeat whose sender role is
the Split value (3) is stored verbatim into `peer_role`, and a `force_role`
whose argument is the Split value is stored verbatim into `local_role`. -/
theorem role_domain_violated_by_split_inputs :
    ¬ RoleDomainOk (step (cluster_state_init 1 [65])
        (Op.receive 5 { cluster_id := 1, sender_role := CLUSTER_ROLE_SPLIT,
                        sender_serial := [66], timestamp := 5 })) ∧
    ¬ RoleDomainOk (step (cluster_state_init 1 [65])
        (Op.force_role CLUSTER_ROLE_SPLIT)) := by
  decide

/-- C3 amended: a Standby node with the heartbeat up that ticks past the
3000 ms timeout marks the heartbeat down, promotes itself and activates the
forwarding resources exactly once; its final role is Active — unless the
stale peer role was still Active, the split flag was clear and auto recovery
is on with a losing tie-break, in which case the same tick's split-brain
resolution demotes it straight back to Standby. -/
theorem standby_promotion_on_timeout (now lu pu : Int) (s : cluster_state_t)
    (hrole : s.local_role = CLUSTER_ROLE_STANDBY)
    (hup : s.heartbeat_up = true)
    (ht : (now - s.last_heartbeat_rx) * 1000 > HEARTBEAT_TIMEOUT_MS) :
    (cluster_heartbeat_tick now lu pu s).state.heartbeat_up = false ∧
    (cluster_heartbeat_tick now lu pu s).effects.count Effect.activate_virtual_ips = 1 ∧
    (cluster_heartbeat_tick now lu pu s).effects.count Effect.activate_mac_tables = 1 ∧
    (cluster_heartbeat_tick now lu pu s).state.local_role =
      (if s.peer_role = CLUSTER_ROLE_ACTIVE ∧ s.split_brain_detected = false ∧
          s.auto_recovery_enabled = true ∧ should_demote lu pu s = true
       then CLUSTER_ROLE_STANDBY else CLUSTER_ROLE_ACTIVE) := by
  unfold cluster_heartbeat_tick tick_loss_phase tick_split_phase
    cluster_auto_resolve_split_brain
  simp only [hrole, hup, ht, should_demote, CLUSTER_ROLE_STANDBY, CLUSTER_ROLE_ACTIVE]
  split_ifs <;> simp_all [should_demote, CLUSTER_ROLE_STANDBY, CLUSTER_ROLE_ACTIVE]

/-- Standby node whose last heartbeat arrived at time 0, for the C3 witness:
the stale peer role is Init, so nothing interferes with the promotion. -/
def exStandby : cluster_state_t :=
  { local_role := CLUSTER_ROLE_STANDBY
    peer_role := CLUSTER_ROLE_INIT
    heartbeat_up := true
    last_heartbeat_rx := 0
    last_heartbeat_tx := 0
    cluster_id := 1
    local_serial := [66]
    peer_serial := [65]
    split_brain_detected := false
    auto_recovery_enabled := false
    election_policy := ELECTION_PRIORITY_SERIAL }

/-- Witness for C3: a tick at t = 4 s (4000 ms > 3000 ms) promotes the
standby node of `exStandby` and activates the resources exactly once. -/
theorem standby_promotion_on_timeout_witness :
    exStandby.local_role = CLUSTER_ROLE_STANDBY ∧
    exStandby.heartbeat_up = true ∧
    (4 - exStandby.last_heartbeat_rx) * 1000 > HEARTBEAT_TIMEOUT_MS ∧
    (cluster_heartbeat_tick 4 0 0 exStandby).state.heartbeat_up = false ∧
    (cluster_heartbeat_tick 4 0 0 exStandby).effects.count Effect.activate_virtual_ips = 1 :=
  ⟨rfl, rfl, by decide,
    (standby_promotion_on_timeout 4 0 0 exStandby rfl rfl (by decide)).1,
    (standby_promotion_on_timeout 4 0 0 exStandby rfl rfl (by decide)).2.1⟩

/-- Standby node with stale dual-active information and auto recovery on, for
the C3 counterexample: peer role still Active, split flag clear, local serial
"B" losing the tie-break against peer serial "A". -/
def exStandbyDemoted : cluster_state_t :=
  { local_role := CLUSTER_ROLE_STANDBY
    peer_role := CLUSTER_ROLE_ACTIVE
    heartbeat_up := true
    last_heartbeat_rx := 0
    last_heartbeat_tx := 0
    cluster_id := 1
    local_serial := [66]
    peer_serial := [65]
    split_brain_detected := false
    auto_recovery_enabled := true
    election_policy := ELECTION_PRIORITY_SERIAL }

/-- Counterexample for C3 as stated: from `exStandbyDemoted` (Standby,
heartbeat up, timeout elapsed) the tick promotes — but the same tick's
split-brain detection auto-resolves and demotes straight back, so the final
role is Standby, not Active. -/
theorem standby_promotion_demoted_same_tick :
    exStandbyDemoted.local_role = CLUSTER_ROLE_STANDBY ∧
    exStandbyDemoted.heartbeat_up = true ∧
    (4 - exStandbyDemoted.last_heartbeat_rx) * 1000 > HEARTBEAT_TIMEOUT_MS ∧
    (cluster_heartbeat_tick 4 0 0 exStandbyDemoted).state.local_role ≠ CLUSTER_ROLE_ACTIVE := by
  decide

/-- C10 amended: a tick on a state whose heartbeat is already down performs no
activation side effect and never promotes; the only possible role change is
the resolver's Active-to-Standby demotion when the dual-active condition is
detected on that tick with auto recovery enabled — in particular a Standby
node stays Standby no matter how much time has elapsed. -/
theorem tick_no_activation_when_down (now lu pu : Int) (s : cluster_state_t)
    (h : s.heartbeat_up = false) :
    Effect.activate_virtual_ips ∉ (cluster_heartbeat_tick now lu pu s).effects ∧
    Effect.activate_mac_tables ∉ (cluster_heartbeat_tick now lu pu s).effects ∧
    (cluster_heartbeat_tick now lu pu s).state.local_role =
      (if s.local_role = CLUSTER_ROLE_ACTIVE ∧ s.peer_role = CLUSTER_ROLE_ACTIVE ∧
          s.split_brain_detected = false ∧ s.auto_recovery_enabled = true ∧
          should_demote lu pu s = true
       then CLUSTER_ROLE_STANDBY else s.local_role) ∧
    (s.local_role = CLUSTER_ROLE_STANDBY →
      (cluster_heartbeat_tick now lu pu s).state.local_role = CLUSTER_ROLE_STANDBY) := by
  have hloss : tick_loss_phase now s = (s, []) := by
    simp [tick_loss_phase, h]
  simp only [cluster_heartbeat_tick, hloss]
  simp only [tick_split_phase, cluster_auto_resolve_split_brain, should_demote]
  split_ifs <;>
    simp_all [CLUSTER_ROLE_STANDBY, CLUSTER_ROLE_ACTIVE]

/-- Witness for C10 at a quiescent standby state: with the heartbeat already
down, a tick far past the timeout changes nothing about the role. -/
theorem tick_no_activation_when_down_witness :
    ({ exStandby with heartbeat_up := false } : cluster_state_t).heartbeat_up = false ∧
    (cluster_heartbeat_tick 1000 0 0 { exStandby with heartbeat_up := false }).state.local_role =
      CLUSTER_ROLE_STANDBY :=
  ⟨rfl,
    (tick_no_activation_when_down 1000 0 0 { exStandby with heartbeat_up := false } rfl).2.2.2 rfl⟩

/-- Dual-active state with the heartbeat already down and auto recovery on,
for the C10 counterexample. -/
def exDownDualActive : cluster_state_t :=
  { local_role := CLUSTER_ROLE_ACTIVE
    peer_role := CLUSTER_ROLE_ACTIVE
    heartbeat_up := false
    last_heartbeat_rx := 0
    last_heartbeat_tx := 0
    cluster_id := 1
    local_serial := [66]
    peer_serial := [65]
    split_brain_detected := false
    auto_recovery_enabled := true
    election_policy := ELECTION_PRIORITY_SERIAL }

/-- Counterexample for C10 as stated: with the heartbeat already down, a tick
on `exDownDualActive` still changes `local_role` — split-brain detection fires
and the resolver demotes the local node to Standby. -/
theorem tick_changes_role_when_down :
    exDownDualActive.heartbeat_up = false ∧
    (cluster_heartbeat_tick 100 0 0 exDownDualActive).state.local_role ≠
      exDownDualActive.local_role := by
  decide

/-- Role of the local node as the Scheduler observes it during a tick at time
`now`: the failover-on-loss promotion (heartbeat up, timeout elapsed, local
role Standby) has already been applied when the dual-active check runs. -/
def tick_observed_role (now : Int) (s : cluster_state_t) : Nat :=
  if s.heartbeat_up = true ∧ (now - s.last_heartbeat_rx) * 1000 > HEARTBEAT_TIMEOUT_MS ∧
     s.local_role = CLUSTER_ROLE_STANDBY
  then CLUSTER_ROLE_ACTIVE else s.local_role

/-- Claim-side predicate: the operation is a tick whose edge-triggered
detection sets the split-brain flag — it observes both roles Active while the
flag is currently false, and the detection is not immediately undone by an
auto-resolve self-demotion in the same tick. -/
def setsSplitFlag (s : cluster_state_t) : Op → Bool
  | Op.tick now lu pu =>
      decide (tick_observed_role now s = CLUSTER_ROLE_ACTIVE) &&
      decide (s.peer_role = CLUSTER_ROLE_ACTIVE) &&
      !s.split_brain_detected &&
      !(s.auto_recovery_enabled && should_demote lu pu s)
  | _ => false

/-- Claim-side predicate: the operation resolves or overrides the split-brain
condition — an operator `force_role` (always), or a tick whose edge-triggered
detection immediately self-demotes through `auto_resolve`. -/
def clearsSplitFlag (s : cluster_state_t) : Op → Bool
  | Op.tick now lu pu =>
      decide (tick_observed_role now s = CLUSTER_ROLE_ACTIVE) &&
      decide (s.peer_role = CLUSTER_ROLE_ACTIVE) &&
      !s.split_brain_detected &&
      s.auto_recovery_enabled && should_demote lu pu s
  | Op.force_role _ => true
  | _ => false

/-- Execution of a list of operations from a start state. -/
def runOps (s : cluster_state_t) : List Op → cluster_state_t
  | [] => s
  | op :: ops => runOps (step s op) ops

/-- Claim-side predicate: no operation of the trace resolves or overrides the
split-brain condition (evaluated at the state each operation runs in). -/
def noClear (s : cluster_state_t) : List Op → Bool
  | [] => true
  | op :: ops => !clearsSplitFlag s op && noClear (step s op) ops

/-- Claim-side predicate: some tick of the trace sets the split-brain flag
(edge-triggered detection of the dual-active condition) and no later
operation resolves or overrides it. -/
def detectionPending (s : cluster_state_t) : List Op → Bool
  | [] => false
  | op :: ops =>
      (setsSplitFlag s op && noClear (step s op) ops) ||
      detectionPending (step s op) ops

/-- Per-operation characterisation of the split-brain flag: after any
operation the flag is set exactly when the operation set it (edge-triggered
tick detection not immediately undone by auto-resolve) or it was already set
and the operation did not clear it. -/
theorem step_split_flag (s : cluster_state_t) (op : Op) :
    (step s op).split_brain_detected =
      (setsSplitFlag s op || (s.split_brain_detected && !clearsSplitFlag s op)) := by
  cases op with
  | tick now lu pu =>
      simp only [step, cluster_heartbeat_tick, tick_loss_phase, tick_split_phase,
        cluster_auto_resolve_split_brain, setsSplitFlag, clearsSplitFlag,
        tick_observed_role, should_demote]
      split_ifs <;>
        by_cases hA : s.local_role = CLUSTER_ROLE_ACTIVE <;>
        by_cases hP : s.peer_role = CLUSTER_ROLE_ACTIVE <;>
        simp_all
  | receive now msg =>
      simp [step, cluster_heartbeat_received, setsSplitFlag, clearsSplitFlag]
  | force_role role =>
      simp [step, cluster_force_role, setsSplitFlag, clearsSplitFlag]
  | get_status d =>
      simp [step, setsSplitFlag, clearsSplitFlag]

/-- Trace form of the flag characterisation, for an arbitrary start state. -/
theorem runOps_split_flag (ops : List Op) (s : cluster_state_t) :
    (runOps s ops).split_brain_detected =
      (detectionPending s ops || (s.split_brain_detected && noClear s ops)) := by
  induction ops generalizing s with
  | nil => simp [runOps, detectionPending, noClear]
  | cons op ops ih =>
      simp only [runOps, detectionPending, noClear, ih, step_split_flag]
      cases hset : setsSplitFlag s op <;>
        cases hflag : s.split_brain_detected <;>
        cases hclear : clearsSplitFlag s op <;>
        cases hnc : noClear (step s op) ops <;>
        simp

/-- C4: the split-brain flag invariant.  Per operation: after any operation on
any state the flag is set exactly when the operation was a tick whose
edge-triggered detection observed both roles Active while the flag was false
(and auto-resolve did not immediately demote), or the flag was already set and
the operation neither resolved (auto-resolve self-demotion) nor overrode
(`force_role`) it.  Over any trace from an initialised state: the flag is set
exactly when some tick of the trace performed such a detection and no later
operation resolved or overrode it. -/
theorem split_flag_characterization :
    (∀ s op, (step s op).split_brain_detected =
      (setsSplitFlag s op || (s.split_brain_detected && !clearsSplitFlag s op))) ∧
    (∀ cid serial ops,
      (runOps (cluster_state_init cid serial) ops).split_brain_detected =
        detectionPending (cluster_state_init cid serial) ops) := by
  refine ⟨step_split_flag, fun cid serial ops => ?_⟩
  simp [runOps_split_flag, cluster_state_init]

end NetBlade
